import Mathlib

/-!
Shallow embedding of the AI-ChatBot server (express + sqlite3 + groq, file
`src/config/config.js` of the repository).

Modelling conventions:
* SQLite wall-clock time (`datetime("now")` / `DEFAULT CURRENT_TIMESTAMP`) is
  modelled by a logical clock stored in the database state; every write
  statement reads the clock as its statement time and then advances it, so
  timestamps are strictly increasing across statements.  (SQLite timestamps
  have one-second granularity and can tie; the model abstracts real time to a
  strictly increasing clock.)
* Each SQL statement issued through `db.run` is a `Stmt`; `db.serialize` in
  the source only sequences statements, it opens no transaction, so a
  multi-statement operation is modelled as a list of statements applied in
  order, every prefix of which is a reachable intermediate state.
* The sqlite3 driver is used without `PRAGMA foreign_keys = ON`, so the
  declared `FOREIGN KEY (session_id)` of the `messages` table is not
  enforced; accordingly `insertMessage` performs no existence check.
* `uuidv4()` is externalized: `createNewChatSession` takes the generated
  identifier as a parameter.
* The Groq completion call is externalized as a function from the windowed
  message list to a `GatewayResult`.
-/

/-- A row of the `chat_sessions` table. -/
structure SessionRow where
  id : String
  title : String
  created_at : Nat
  updated_at : Nat
deriving DecidableEq, Repr

/-- A row of the `messages` table (`id` is the AUTOINCREMENT key). -/
structure MessageRow where
  id : Nat
  session_id : String
  role : String
  content : String
  timestamp : Nat
deriving DecidableEq, Repr

/-- A `{role, content}` record, as selected by `getConversationHistory` and
as sent to the completion API. -/
structure ChatMsg where
  role : String
  content : String
deriving DecidableEq, Repr

/-- The database state: the two tables, the AUTOINCREMENT counter of
`messages`, and the logical clock. -/
structure Db where
  sessions : List SessionRow
  messages : List MessageRow
  nextMsgId : Nat
  clock : Nat
deriving DecidableEq, Repr

/-- The freshly created database (`chat.db` after the two CREATE TABLE
statements). -/
def dbInit : Db := { sessions := [], messages := [], nextMsgId := 1, clock := 0 }

/-- Title derivation of `saveMessage`:
`content.length > 30 ? content.substring(0, 30) + "..." : content`. -/
def deriveTitle (content : String) : String :=
  if content.length > 30 then content.take 30 ++ "..." else content

/-- The SQL write statements issued by the store functions. -/
inductive Stmt where
  | upsertSession (id title : String)
  | touchSession (id : String)
  | insertMessage (session_id role content : String)
  | deleteMessages (session_id : String)
  | deleteSession (id : String)
deriving DecidableEq, Repr

/-- Semantics of one statement.  The statement time is the current clock;
applying a statement advances the clock. -/
def Stmt.apply : Stmt → Db → Db
  | .upsertSession sid title, db =>
      -- INSERT OR REPLACE deletes any row with the same primary key and
      -- inserts a new row; `created_at` is not in the column list, so it is
      -- re-evaluated from its DEFAULT CURRENT_TIMESTAMP.
      { db with
        sessions := db.sessions.filter (fun r => !(r.id == sid)) ++
          [{ id := sid, title := title, created_at := db.clock, updated_at := db.clock }],
        clock := db.clock + 1 }
  | .touchSession sid, db =>
      -- UPDATE chat_sessions SET updated_at = datetime("now") WHERE id = ?
      { db with
        sessions := db.sessions.map (fun r =>
          if r.id == sid then { r with updated_at := db.clock } else r),
        clock := db.clock + 1 }
  | .insertMessage sid role content, db =>
      -- INSERT INTO messages (session_id, role, content) VALUES (?, ?, ?);
      -- id from AUTOINCREMENT, timestamp from DEFAULT CURRENT_TIMESTAMP.
      { db with
        messages := db.messages ++
          [{ id := db.nextMsgId, session_id := sid, role := role,
             content := content, timestamp := db.clock }],
        nextMsgId := db.nextMsgId + 1,
        clock := db.clock + 1 }
  | .deleteMessages sid, db =>
      { db with
        messages := db.messages.filter (fun m => !(m.session_id == sid)),
        clock := db.clock + 1 }
  | .deleteSession sid, db =>
      { db with
        sessions := db.sessions.filter (fun r => !(r.id == sid)),
        clock := db.clock + 1 }

/-- Run a list of statements in order (what `db.serialize` guarantees). -/
def runStmts (db : Db) (stmts : List Stmt) : Db :=
  stmts.foldl (fun d s => s.apply d) db

/-- Stable insertion of a message row into a list sorted by ascending
timestamp (equal timestamps keep the incoming row first). -/
def insertByTimestamp (m : MessageRow) : List MessageRow → List MessageRow
  | [] => [m]
  | x :: xs =>
      if m.timestamp ≤ x.timestamp then m :: x :: xs else x :: insertByTimestamp m xs

/-- `ORDER BY timestamp ASC` as a stable sort over the table-scan order. -/
def sortByTimestampAsc : List MessageRow → List MessageRow
  | [] => []
  | x :: xs => insertByTimestamp x (sortByTimestampAsc xs)

/-- `getConversationHistory(sessionId)`:
SELECT role, content FROM messages WHERE session_id = ? ORDER BY timestamp ASC. -/
def getConversationHistory (db : Db) (sessionId : String) : List ChatMsg :=
  ((sortByTimestampAsc (db.messages.filter (fun m => m.session_id == sessionId))).map
    (fun m => { role := m.role, content := m.content }))

/-- Stable insertion of a session row into a list sorted by descending
`updated_at`. -/
def insertByUpdatedDesc (r : SessionRow) : List SessionRow → List SessionRow
  | [] => [r]
  | x :: xs =>
      if x.updated_at ≤ r.updated_at then r :: x :: xs else x :: insertByUpdatedDesc r xs

/-- `ORDER BY updated_at DESC` as a stable sort over the table-scan order. -/
def sortByUpdatedDesc : List SessionRow → List SessionRow
  | [] => []
  | x :: xs => insertByUpdatedDesc x (sortByUpdatedDesc xs)

/-- `getChatSessions()`: SELECT ... FROM chat_sessions ORDER BY updated_at DESC. -/
def getChatSessions (db : Db) : List SessionRow :=
  sortByUpdatedDesc db.sessions

/-- The session-metadata statement of `saveMessage`: on `isFirstMessage` an
INSERT OR REPLACE setting the derived title, otherwise an UPDATE of
`updated_at` only. -/
def saveMessageMetaStmt (sessionId content : String) (isFirstMessage : Bool) : Stmt :=
  if isFirstMessage then .upsertSession sessionId (deriveTitle content)
  else .touchSession sessionId

/-- The two statements `saveMessage` queues under `db.serialize`, in order. -/
def saveMessageStmts (sessionId role content : String) (isFirstMessage : Bool) : List Stmt :=
  [saveMessageMetaStmt sessionId content isFirstMessage,
   .insertMessage sessionId role content]

/-- `saveMessage(sessionId, role, content, isFirstMessage)`, fault-free run. -/
def saveMessage (db : Db) (sessionId role content : String)
    (isFirstMessage : Bool) : Db :=
  runStmts db (saveMessageStmts sessionId role content isFirstMessage)

/-- `saveMessage` with per-statement fault injection.  A failed statement
changes nothing.  Only the message-insert statement has an error callback in
the source, so the returned promise resolves exactly when the insert
succeeds; a fault of the metadata statement is not observed. -/
def saveMessageFaulty (db : Db) (sessionId role content : String)
    (isFirstMessage metaOk insOk : Bool) : Db × Bool :=
  let d1 := if metaOk then (saveMessageMetaStmt sessionId content isFirstMessage).apply db else db
  let d2 := if insOk then (Stmt.insertMessage sessionId role content).apply d1 else d1
  (d2, insOk)

/-- `createNewChatSession()` with the generated uuid as a parameter:
INSERT INTO chat_sessions (id, title) VALUES (?, "New Chat"); rejects on a
primary-key conflict. -/
def createNewChatSession (db : Db) (sessionId : String) : Except String Db :=
  if db.sessions.any (fun r => r.id == sessionId) then
    Except.error "UNIQUE constraint failed"
  else
    Except.ok { db with
      sessions := db.sessions ++
        [{ id := sessionId, title := "New Chat",
           created_at := db.clock, updated_at := db.clock }],
      clock := db.clock + 1 }

/-- The two statements `deleteChatSession` queues, in order. -/
def deleteChatSessionStmts (sessionId : String) : List Stmt :=
  [.deleteMessages sessionId, .deleteSession sessionId]

/-- `deleteChatSession(sessionId)`, fault-free run. -/
def deleteChatSession (db : Db) (sessionId : String) : Db :=
  runStmts db (deleteChatSessionStmts sessionId)

/-- JSON/text response bodies produced by the routes. -/
inductive RespBody where
  | err (msg : String)
  | sessionsList (sessions : List SessionRow)
  | messagesList (messages : List ChatMsg)
  | created (sessionId title : String)
  | chatOk (response sessionId : String) (tokensUsed : Nat)
  | deletedOk (msg : String)
  | exportDoc (text : String)
deriving DecidableEq, Repr

/-- An HTTP response: status code plus body. -/
structure HttpResponse where
  status : Nat
  body : RespBody
deriving DecidableEq, Repr

/-- Outcome of the Groq completion call: the reply text and total token
count on success, or the thrown error message. -/
inductive GatewayResult where
  | success (reply : String) (tokens : Nat)
  | failure (errMsg : String)
deriving DecidableEq, Repr

/-- The fixed system message prepended to every completion request. -/
def systemMessage : ChatMsg :=
  { role := "system",
    content := "You are a helpful, detailed, and enthusiastic AI assistant. Provide comprehensive and thorough responses while maintaining natural conversation flow." }

/-- `history.slice(-15)`: the last 15 elements (the whole list when shorter). -/
def sliceLast15 (history : List ChatMsg) : List ChatMsg :=
  history.drop (history.length - 15)

/-- The history windower inside the message route: the fixed system message
followed by `history.slice(-15).map(msg => ({role: msg.role, content: msg.content}))`. -/
def windowHistory (history : List ChatMsg) : List ChatMsg :=
  systemMessage ::
    (sliceLast15 history).map (fun m => { role := m.role, content := m.content })

/-- JavaScript `s.includes(sub)` (for the non-empty needles used here). -/
def jsIncludes (s sub : String) : Bool :=
  decide ((s.splitOn sub).length ≠ 1)

/-- The catch block of the message route: classify the error by its message
text and map it to an HTTP response. -/
def classifyFailure (errMsg : String) : HttpResponse :=
  if jsIncludes errMsg "rate limit" then
    { status := 429, body := .err "Rate limit exceeded. Please wait a moment and try again." }
  else if jsIncludes errMsg "quota" then
    { status := 429, body := .err "API quota exceeded. Please check your Groq account." }
  else
    { status := 500, body := .err ("AI service error: " ++ errMsg) }

/-- POST `/api/chats/:sessionId/message`.  `message` is the body field
(`none` when absent); `gw` is the externalized Groq completion call.
Returns the response and the resulting database state. -/
def messageRoute (db : Db) (sessionId : String) (message : Option String)
    (gw : List ChatMsg → GatewayResult) : HttpResponse × Db :=
  match message with
  | none => ({ status := 400, body := .err "Message is required" }, db)
  | some m =>
    -- `if (!message)`: the empty string is falsy.
    if m = "" then ({ status := 400, body := .err "Message is required" }, db)
    else
      let isFirstMessage := (getConversationHistory db sessionId).length == 0
      let db1 := saveMessage db sessionId "user" m isFirstMessage
      let history := getConversationHistory db1 sessionId
      let messages := windowHistory history
      match gw messages with
      | .success reply tokens =>
          let db2 := saveMessage db1 sessionId "assistant" reply false
          ({ status := 200, body := .chatOk reply sessionId tokens }, db2)
      | .failure errMsg => (classifyFailure errMsg, db1)

/-- The export document: header block, then one `Role: content` line plus a
blank line per message.  `nowText` stands for `new Date().toLocaleString()`. -/
def exportText (title nowText : String) (messages : List ChatMsg) : String :=
  "AI Chat Export\n" ++ "Title: " ++ title ++ "\n" ++
  "Exported: " ++ nowText ++ "\n" ++
  "========================================\n\n" ++
  String.join (messages.map (fun m =>
    (if m.role == "user" then "You" else "AI Assistant") ++ ": " ++ m.content ++ "\n\n"))

/-- GET `/api/chats` with fault injection: the query rejects when `qOk` is
false, and the route maps the rejection to a 500. -/
def chatsRouteFaulty (db : Db) (qOk : Bool) : HttpResponse :=
  if qOk then { status := 200, body := .sessionsList (getChatSessions db) }
  else { status := 500, body := .err "Failed to load chats" }

/-- GET `/api/chats/:sessionId` with fault injection. -/
def historyRouteFaulty (db : Db) (sessionId : String) (qOk : Bool) : HttpResponse :=
  if qOk then { status := 200, body := .messagesList (getConversationHistory db sessionId) }
  else { status := 500, body := .err "Failed to load chat" }

/-- DELETE `/api/chats/:sessionId` with per-statement fault injection.  Both
statements run under `db.serialize`; only the session-row delete has an
error callback, so the route reports 500 exactly when that one fails. -/
def deleteRouteFaulty (db : Db) (sessionId : String)
    (delMsgsOk delSessOk : Bool) : HttpResponse × Db :=
  let d1 := if delMsgsOk then (Stmt.deleteMessages sessionId).apply db else db
  let d2 := if delSessOk then (Stmt.deleteSession sessionId).apply d1 else d1
  if delSessOk then ({ status := 200, body := .deletedOk "Chat deleted successfully" }, d2)
  else ({ status := 500, body := .err "Failed to delete chat" }, d2)

/-- The title fetch of the export route: the promise ignores `err` and
resolves the row regardless, so a fault resolves `undefined`. -/
def exportTitleFetchFaulty (db : Db) (sessionId : String) (qOk : Bool) :
    Option SessionRow :=
  if qOk then db.sessions.find? (fun r => r.id == sessionId) else none

/-- GET `/api/chats/:sessionId/export` with fault injection on the history
query and on the title fetch.  `session?.title || "Untitled"`: a missing row
or an empty (falsy) title falls back to "Untitled". -/
def exportRouteFaulty (db : Db) (sessionId nowText : String)
    (histOk titleOk : Bool) : HttpResponse :=
  if histOk then
    let messages := getConversationHistory db sessionId
    let title :=
      match exportTitleFetchFaulty db sessionId titleOk with
      | some r => if r.title = "" then "Untitled" else r.title
      | none => "Untitled"
    { status := 200, body := .exportDoc (exportText title nowText messages) }
  else { status := 500, body := .err "Export failed" }

/-- One `saveMessage` call of a trace. -/
structure AppendCall where
  sessionId : String
  role : String
  content : String
  isFirstMessage : Bool
deriving DecidableEq, Repr

/-- Run a sequence of `saveMessage` calls in order. -/
def runAppends (db : Db) (calls : List AppendCall) : Db :=
  calls.foldl (fun d c => saveMessage d c.sessionId c.role c.content c.isFirstMessage) db

/-- Spec-side definition: the messages a call sequence appends to session
`s`, as `{role, content}` records in call order. -/
def appendedMessages (s : String) (calls : List AppendCall) : List ChatMsg :=
  calls.filterMap (fun c =>
    if c.sessionId = s then some { role := c.role, content := c.content } else none)

/-- Well-formedness of a reachable database state: message timestamps are
strictly increasing in table order and lie below the clock. -/
def Db.WF (db : Db) : Prop :=
  db.messages.Pairwise (fun a b => a.timestamp < b.timestamp) ∧
  ∀ m ∈ db.messages, m.timestamp < db.clock

/-- Spec-side definition (the atomicity the spec demands of `saveMessage`):
every reachable intermediate state — the result of any prefix of the issued
statements — is either the initial or the final state. -/
def saveMessageAtomic (db : Db) (sessionId role content : String)
    (isFirstMessage : Bool) : Prop :=
  ∀ pfx rest : List Stmt,
    pfx ++ rest = saveMessageStmts sessionId role content isFirstMessage →
    runStmts db pfx = db ∨
    runStmts db pfx = saveMessage db sessionId role content isFirstMessage

/-- The session ids present in the store. -/
def sessionIds (db : Db) : List String :=
  db.sessions.map (fun r => r.id)

theorem insertByTimestamp_eq_cons (m : MessageRow) (l : List MessageRow)
    (h : ∀ y ∈ l, m.timestamp ≤ y.timestamp) :
    insertByTimestamp m l = m :: l := by
  cases l with
  | nil => rfl
  | cons x xs =>
      unfold insertByTimestamp
      rw [if_pos (h x (List.mem_cons_self x xs))]

theorem sortByTimestampAsc_eq_self (l : List MessageRow)
    (h : l.Pairwise (fun a b => a.timestamp ≤ b.timestamp)) :
    sortByTimestampAsc l = l := by
  induction l with
  | nil => rfl
  | cons x xs ih =>
      rcases List.pairwise_cons.mp h with ⟨hx, hxs⟩
      rw [sortByTimestampAsc, ih hxs]
      exact insertByTimestamp_eq_cons x xs hx

theorem saveMessage_messages (db : Db) (sid role content : String) (f : Bool) :
    (saveMessage db sid role content f).messages =
      db.messages ++
        [{ id := db.nextMsgId, session_id := sid, role := role,
           content := content, timestamp := db.clock + 1 }] := by
  cases f <;> rfl

theorem saveMessage_clock (db : Db) (sid role content : String) (f : Bool) :
    (saveMessage db sid role content f).clock = db.clock + 2 := by
  cases f <;> rfl

theorem wf_saveMessage (db : Db) (h : db.WF) (sid role content : String) (f : Bool) :
    (saveMessage db sid role content f).WF := by
  obtain ⟨hp, hc⟩ := h
  constructor
  · rw [saveMessage_messages]
    refine List.pairwise_append.mpr ⟨hp, List.pairwise_singleton _ _, ?_⟩
    intro a ha b hb
    rw [List.mem_singleton] at hb
    subst hb
    exact Nat.lt_succ_of_lt (hc a ha)
  · rw [saveMessage_messages, saveMessage_clock]
    intro m hm
    rcases List.mem_append.mp hm with hm | hm
    · exact Nat.lt_add_right 2 (hc m hm) |>.trans_le (le_refl _)
    · rw [List.mem_singleton] at hm
      subst hm
      show db.clock + 1 < db.clock + 2
      omega

theorem getHistory_of_wf (db : Db) (h : db.WF) (s : String) :
    getConversationHistory db s =
      (db.messages.filter (fun m => m.session_id == s)).map
        (fun m => { role := m.role, content := m.content }) := by
  unfold getConversationHistory
  rw [sortByTimestampAsc_eq_self]
  exact (List.Pairwise.filter _ h.1).imp le_of_lt

theorem getHistory_saveMessage (db : Db) (h : db.WF) (sid role content s : String)
    (f : Bool) :
    getConversationHistory (saveMessage db sid role content f) s =
      getConversationHistory db s ++
        (if sid = s then [{ role := role, content := content }] else []) := by
  rw [getHistory_of_wf _ (wf_saveMessage db h sid role content f),
      getHistory_of_wf _ h, saveMessage_messages, List.filter_append, List.map_append]
  by_cases hc : sid = s <;> simp [hc]

theorem getHistory_runAppends (db : Db) (h : db.WF) (calls : List AppendCall)
    (s : String) :
    getConversationHistory (runAppends db calls) s =
      getConversationHistory db s ++ appendedMessages s calls := by
  induction calls generalizing db with
  | nil => simp [runAppends, appendedMessages]
  | cons c cs ih =>
      have hstep : runAppends db (c :: cs) =
          runAppends (saveMessage db c.sessionId c.role c.content c.isFirstMessage) cs := rfl
      rw [hstep, ih _ (wf_saveMessage db h _ _ _ _),
          getHistory_saveMessage db h c.sessionId c.role c.content s c.isFirstMessage]
      by_cases hc : c.sessionId = s <;>
        simp [appendedMessages, List.filterMap_cons, hc, List.append_assoc]

theorem dbInit_wf : dbInit.WF := by
  constructor
  · exact List.Pairwise.nil
  · intro m hm
    simp [dbInit] at hm

theorem chatMsg_map_eta (l : List ChatMsg) :
    l.map (fun m => ({ role := m.role, content := m.content } : ChatMsg)) = l := by
  induction l with
  | nil => rfl
  | cons x xs ih => simp [ih]

theorem filter_not_filter (l : List SessionRow) (p : SessionRow → Bool) :
    (l.filter (fun r => !(p r))).filter p = [] := by
  induction l with
  | nil => rfl
  | cons x xs ih => by_cases h : p x <;> simp [h, ih]

theorem touch_preserves_ids (sid : String) (c : Nat) (l : List SessionRow) :
    (l.map (fun r => if r.id == sid then { r with updated_at := c } else r)).map
        (fun r => r.id) =
      l.map (fun r => r.id) := by
  induction l with
  | nil => rfl
  | cons x xs ih =>
      have hx : (if x.id == sid then { x with updated_at := c } else x).id = x.id := by
        by_cases h : (x.id == sid) = true <;> simp [h]
      simp only [List.map_cons, hx, ih]

theorem mem_sessionIds_saveMessage_first (db : Db) (sid role content : String) :
    sid ∈ sessionIds (saveMessage db sid role content true) := by
  simp [sessionIds, saveMessage, runStmts, saveMessageStmts, saveMessageMetaStmt,
    Stmt.apply]

theorem sessionIds_saveMessage_nonfirst (db : Db) (sid role content : String) :
    sessionIds (saveMessage db sid role content false) = sessionIds db := by
  show ((db.sessions.map (fun r => if r.id == sid then { r with updated_at := db.clock } else r)).map
      (fun r => r.id)) = db.sessions.map (fun r => r.id)
  exact touch_preserves_ids sid db.clock db.sessions

/-- C1: for every sequence of `saveMessage` calls starting from the fresh
database, `getConversationHistory` on any session returns exactly the
messages appended to that session, in the exact order they were appended,
regardless of interleaved appends to other sessions. -/
theorem c1_getHistory_returns_appends_in_order (calls : List AppendCall) (s : String) :
    getConversationHistory (runAppends dbInit calls) s = appendedMessages s calls := by
  rw [getHistory_runAppends dbInit dbInit_wf calls s]
  show ([] : List ChatMsg) ++ appendedMessages s calls = appendedMessages s calls
  exact List.nil_append _

/-- C2: the history windower returns the fixed system message first, then at
most the last 15 input messages unchanged and in order; for an input of 20
messages the output has length 16 and its tail is the last 15 inputs. -/
theorem c2_windowHistory_system_then_last15 (history : List ChatMsg) :
    windowHistory history = systemMessage :: history.drop (history.length - 15) ∧
    (history.drop (history.length - 15)).length ≤ 15 ∧
    (history.length = 20 →
      (windowHistory history).length = 16 ∧
      (windowHistory history).drop 1 = history.drop 5 ∧
      (history.drop 5).length = 15) := by
  have hw : windowHistory history = systemMessage :: history.drop (history.length - 15) := by
    unfold windowHistory sliceLast15
    rw [chatMsg_map_eta]
  refine ⟨hw, ?_, ?_⟩
  · rw [List.length_drop]
    omega
  · intro h20
    refine ⟨?_, ?_, ?_⟩
    · rw [hw]
      simp [List.length_drop, h20]
    · rw [hw, h20]
      norm_num
    · simp [List.length_drop, h20]

/-- C2 witness: the windower at a concrete 20-message history. -/
theorem c2_witness :
    (windowHistory (List.replicate 20 ({ role := "user", content := "x" } : ChatMsg))).length = 16 ∧
    (windowHistory (List.replicate 20 ({ role := "user", content := "x" } : ChatMsg))).drop 1 =
      (List.replicate 20 ({ role := "user", content := "x" } : ChatMsg)).drop 5 ∧
    ((List.replicate 20 ({ role := "user", content := "x" } : ChatMsg)).drop 5).length = 15 :=
  (c2_windowHistory_system_then_last15
    (List.replicate 20 ({ role := "user", content := "x" } : ChatMsg))).2.2 (by simp)

/-- C3: after a `saveMessage` call with `isFirstMessage = true`, the
session's title equals the content when its length is at most 30 characters,
and the first 30 characters followed by "..." otherwise. -/
theorem c3_first_message_sets_derived_title (db : Db) (sid role content : String) :
    ((saveMessage db sid role content true).sessions.filter (fun r => r.id == sid)).map
        (fun r => r.title) =
      [if content.length ≤ 30 then content else content.take 30 ++ "..."] := by
  have hs : (saveMessage db sid role content true).sessions =
      db.sessions.filter (fun r => !(r.id == sid)) ++
        [{ id := sid, title := deriveTitle content,
           created_at := db.clock, updated_at := db.clock }] := rfl
  rw [hs, List.filter_append, filter_not_filter]
  simp only [List.nil_append, List.filter_cons]
  by_cases h : content.length ≤ 30
  · simp [deriveTitle, Nat.not_lt.mpr h, h]
  · simp [deriveTitle, Nat.not_le.mp h, h]

/-- C4: the code violates the claim that `created_at` is immutable — the
first-message `INSERT OR REPLACE` replaces the session row and re-evaluates
`created_at` from its default, so a session created at time 0 has
`created_at = 1` after its first message. -/
theorem c4_createdAt_reset_on_first_message :
    createNewChatSession dbInit "s1" =
      Except.ok { sessions := [{ id := "s1", title := "New Chat",
                                 created_at := 0, updated_at := 0 }],
                  messages := [], nextMsgId := 1, clock := 1 } ∧
    (saveMessage { sessions := [{ id := "s1", title := "New Chat",
                                  created_at := 0, updated_at := 0 }],
                   messages := [], nextMsgId := 1, clock := 1 }
        "s1" "user" "hello" true).sessions.map (fun r => (r.id, r.created_at)) =
      [("s1", 1)] := by
  constructor <;> rfl

/-- C5 counterexample: `saveMessage` is not atomic — running only the first
of its two statements reaches a state that is neither the initial nor the
final one (the session metadata is written, the message is not). -/
theorem c5_not_atomic_counterexample :
    ¬ saveMessageAtomic dbInit "s1" "user" "hi" true := by
  intro h
  rcases h [saveMessageMetaStmt "s1" "hi" true] [Stmt.insertMessage "s1" "user" "hi"] rfl
    with h1 | h1 <;> exact absurd h1 (by decide)

/-- C5 amended: the session-metadata write and the message insert are issued
as two separate serialized statements, not one transaction: the state after
the first statement alone has the metadata update applied but no message row,
while the completed call appends exactly one message row. -/
theorem c5_two_serialized_statements (db : Db) (sid role content : String) (f : Bool) :
    runStmts db ((saveMessageStmts sid role content f).take 1) =
      (saveMessageMetaStmt sid content f).apply db ∧
    (runStmts db ((saveMessageStmts sid role content f).take 1)).messages = db.messages ∧
    (saveMessage db sid role content f).messages =
      db.messages ++
        [{ id := db.nextMsgId, session_id := sid, role := role,
           content := content, timestamp := db.clock + 1 }] := by
  refine ⟨rfl, ?_, saveMessage_messages db sid role content f⟩
  cases f <;> rfl

/-- C6 counterexample: a `sendMessage` on a session id absent from the store
creates a session row for that id — the set of session ids gains a member. -/
theorem c6_sendMessage_creates_session_counterexample :
    sessionIds dbInit = [] ∧
    sessionIds (messageRoute dbInit "s1" (some "hello")
        (fun _ => GatewayResult.failure "boom")).2 = ["s1"] := by
  constructor <;> rfl

/-- C6 amended: sessions are created explicitly by `createNewChatSession`,
and also implicitly by the message route — a `sendMessage` on a session id
with no stored messages upserts a session row with that id. -/
theorem c6_message_on_empty_history_creates_row (db : Db) (sid m : String)
    (gw : List ChatMsg → GatewayResult)
    (hempty : getConversationHistory db sid = []) (hm : ¬ m = "") :
    sid ∈ sessionIds (messageRoute db sid (some m) gw).2 := by
  have hfirst : ((getConversationHistory db sid).length == 0) = true := by
    rw [hempty]
    rfl
  simp only [messageRoute, hfirst, if_neg hm]
  cases gw (windowHistory (getConversationHistory (saveMessage db sid "user" m true) sid)) with
  | success reply tokens =>
      show sid ∈ sessionIds (saveMessage (saveMessage db sid "user" m true) sid "assistant" reply false)
      rw [sessionIds_saveMessage_nonfirst]
      exact mem_sessionIds_saveMessage_first db sid "user" m
  | failure e =>
      exact mem_sessionIds_saveMessage_first db sid "user" m

/-- C6 witness: the amended theorem at a concrete input. -/
theorem c6_witness :
    "s2" ∈ sessionIds (messageRoute dbInit "s2" (some "hi")
        (fun _ => GatewayResult.success "ok" 1)).2 :=
  c6_message_on_empty_history_creates_row dbInit "s2" "hi"
    (fun _ => GatewayResult.success "ok" 1) rfl (by decide)

/-- C7: the code violates the claim that every message row has an owning
session — `saveMessage` with `isFirstMessage = false` on an unknown session
id inserts the message while the no-op UPDATE leaves the sessions table
empty (the declared FOREIGN KEY is never enabled). -/
theorem c7_orphan_message_on_nonfirst_append :
    (saveMessage dbInit "s1" "user" "hi" false).messages.map
        (fun m => m.session_id) = ["s1"] ∧
    (saveMessage dbInit "s1" "user" "hi" false).sessions = [] := by
  constructor <;> rfl

/-- C8 counterexample: a storage fault in the export route's title fetch is
silently swallowed — the route still answers 200, not a 5xx. -/
theorem c8_title_fetch_fault_not_5xx :
    (exportRouteFaulty dbInit "s1" "now" true false).status = 200 := rfl

/-- C8 amended: faults of the statements that carry error callbacks (the
session list query, the history query, the message insert of `saveMessage`,
the session-row delete of `deleteChatSession`) are surfaced and mapped to
500, while faults of the export title fetch, of the messages-delete
statement, and of the session-metadata statement of `saveMessage` are
silently swallowed (200 / resolved promise). -/
theorem c8_fault_surfacing (db : Db) (sid nowText role content : String) (f : Bool) :
    (chatsRouteFaulty db false).status = 500 ∧
    (historyRouteFaulty db sid false).status = 500 ∧
    ((deleteRouteFaulty db sid true false).1).status = 500 ∧
    (saveMessageFaulty db sid role content f true false).2 = false ∧
    (exportRouteFaulty db sid nowText true false).status = 200 ∧
    ((deleteRouteFaulty db sid false true).1).status = 200 ∧
    (saveMessageFaulty db sid role content f false true).2 = true := by
  refine ⟨rfl, rfl, rfl, rfl, rfl, rfl, rfl⟩

/-- C9: when the gateway call fails — whatever the error message, hence
whatever the classification — the user message persisted before the call
remains in the store; the resulting state is exactly the state after the
user-message save, with the user's row present. -/
theorem c9_user_message_survives_gateway_failure (db : Db) (sid m e : String)
    (hm : ¬ m = "") :
    (messageRoute db sid (some m) (fun _ => GatewayResult.failure e)).2.messages =
      (saveMessage db sid "user" m
        ((getConversationHistory db sid).length == 0)).messages ∧
    { id := db.nextMsgId, session_id := sid, role := "user", content := m,
      timestamp := db.clock + 1 } ∈
      (messageRoute db sid (some m) (fun _ => GatewayResult.failure e)).2.messages := by
  have h2 : (messageRoute db sid (some m) (fun _ => GatewayResult.failure e)).2 =
      saveMessage db sid "user" m ((getConversationHistory db sid).length == 0) := by
    simp only [messageRoute, if_neg hm]
  refine ⟨by rw [h2], ?_⟩
  rw [h2, saveMessage_messages]
  exact List.mem_append_right _ (List.mem_singleton_self _)

/-- C9 witness: the theorem at a concrete input. -/
theorem c9_witness :
    ({ id := 1, session_id := "s1", role := "user", content := "hello",
       timestamp := 1 } : MessageRow) ∈
      (messageRoute dbInit "s1" (some "hello")
        (fun _ => GatewayResult.failure "rate limit")).2.messages :=
  (c9_user_message_survives_gateway_failure dbInit "s1" "hello" "rate limit"
    (by decide)).2

/-- C10: a message-route request whose body field is missing or the empty
string is answered 400 with the validation error, and the database state is
returned unchanged — in particular every session's message count is
unchanged and the response does not depend on the store. -/
theorem c10_empty_message_rejected_before_store (db : Db) (sid : String)
    (gw : List ChatMsg → GatewayResult) :
    messageRoute db sid none gw =
      ({ status := 400, body := .err "Message is required" }, db) ∧
    messageRoute db sid (some "") gw =
      ({ status := 400, body := .err "Message is required" }, db) := by
  exact ⟨rfl, rfl⟩
